import Mathlib

/-
Shallow embedding of the secure-door controller in src/main.py.

Time is modelled as Int (seconds); Python time.time() floats only ever
enter the relevant comparisons at integer thresholds, and every claim is
about strict or non-strict comparisons against integer constants.
Distances (Python floats from the ultrasonic sensor) are modelled as Int
centimetres; a failed read (None or an exception) is modelled as none.

The module-level globals of main.py are split by owning component:
  AlarmSt   - door_open_alarm_triggered, authorized_door_open,
              last_authorized_open_time as seen by alarm_monitor_thread
  MotionSt  - last_motion_time, motion_count, pir_callback_active
  Sys       - authorized_door_open, last_authorized_open_time,
              last_face_recognition_success, face_recognition_pending,
              face_recognition_start_time, the in-flight capture tasks of
              active_image_futures (counted: the two call sites first drop
              completed futures, so only not-yet-done tasks are ever
              compared against the pool limit), and face_result_queue.
Side effects (send_status_async, servo.set_angle, time.sleep, the
card-removal wait) are reified as an action trace of type Act.
-/

namespace SecureDoor

/-- AUTHORIZED_DOOR_OPEN_INTERVAL from main.py (seconds). -/
def AUTHORIZED_DOOR_OPEN_INTERVAL : Int := 5

/-- FACE_RECOGNITION_COOLDOWN from main.py (seconds). -/
def FACE_RECOGNITION_COOLDOWN : Int := 10

/-- FACE_RECOGNITION_TIMEOUT from main.py (seconds). -/
def FACE_RECOGNITION_TIMEOUT : Int := 5

/-- IMAGE_COOLDOWN from main (seconds between image attempts). -/
def IMAGE_COOLDOWN : Int := 3

/-- Reading of the magnetic door sensor: Python 1 = closed, 0 = opened. -/
inductive DoorState where
  | opened
  | closed
  deriving Repr, DecidableEq

/-- Observable side effects of the controller, in program order. -/
inductive Act where
  | notify (kind : String)
  | setWindow
  | servoAngle (deg : Nat)
  | sleepFor (secs : ℚ)
  | waitCardRemoval
  deriving Repr, DecidableEq, BEq

/-- State read and written by alarm_monitor_thread. -/
structure AlarmSt where
  triggered : Bool
  authorized : Bool
  lastAuth : Int
  deriving Repr, DecidableEq

/-- One iteration of the loop body of alarm_monitor_thread (main.py lines
108-142) on a successful door read at time now; returns the new state and
the notifications emitted this tick. -/
def alarm_monitor_tick (s : AlarmSt) (d : DoorState) (now : Int) : AlarmSt × List Act :=
  match d with
  | .opened =>
      if s.authorized then
        (s, [])
      else
        if now - s.lastAuth > AUTHORIZED_DOOR_OPEN_INTERVAL then
          if s.triggered then
            (s, [])
          else
            ({ s with triggered := true }, [.notify "PHYSICAL_ALARM"])
        else
          (s, [])
  | .closed =>
      ({ s with triggered := false, authorized := false }, [])

/-- Run of the alarm monitor over a span of consecutive opened readings at
the given times, accumulating the number of notifications emitted. -/
def alarm_open_span_run : AlarmSt → List Int → AlarmSt × Nat
  | s, [] => (s, 0)
  | s, t :: ts =>
      let out := alarm_monitor_tick s .opened t
      let rest := alarm_open_span_run out.1 ts
      (rest.1, out.2.length + rest.2)

/-- State written by pir_motion_callback and read by check_motion_and_distance. -/
structure MotionSt where
  lastMotionTime : Int
  count : Nat
  pirActive : Bool
  deriving Repr, DecidableEq

/-- pir_motion_callback (main.py lines 71-83): under motion_lock, set
last_motion_time to now, increment motion_count, mark the callback active. -/
def pir_motion_callback (m : MotionSt) (now : Int) : MotionSt :=
  { lastMotionTime := now, count := m.count + 1, pirActive := true }

/-- The motion-recency read performed under motion_lock in
check_motion_and_distance (line 213): now - last_motion_time is at most the
threshold. -/
def isMotionRecent (m : MotionSt) (now thr : Int) : Bool :=
  decide (now - m.lastMotionTime ≤ thr)

/-- check_motion_and_distance (main.py lines 209-226). dist models the
ultrasonic read: none stands for both a None return and a raised exception,
either of which falls through to return False. -/
def check_motion_and_distance (m : MotionSt) (now : Int) (dist : Option Int) : Bool :=
  if isMotionRecent m now 5 then
    match dist with
    | some d => decide (d ≤ 50)
    | none => false
  else
    false

/-- Shared mutable state of the main loop and the recognition coordinator. -/
structure Sys where
  authorized : Bool
  lastAuth : Int
  lastFaceSuccess : Int
  facePending : Bool
  faceStart : Int
  inflight : Nat
  results : List String
  deriving Repr, DecidableEq

/-- Initial values of the module-level globals of main.py. -/
def sys0 : Sys :=
  { authorized := false, lastAuth := 0, lastFaceSuccess := 0,
    facePending := false, faceStart := 0, inflight := 0, results := [] }

/-- on_face_result (main.py lines 58-61): the MQTT callback enqueues every
received payload on face_result_queue. -/
def on_face_result (s : Sys) (r : String) : Sys :=
  { s with results := s.results ++ [r] }

/-- start_face_recognition (main.py lines 239-262). The source first drops
completed futures from active_image_futures; here inflight already counts
only not-yet-done tasks (completion is the separate Ev.complete event), so
that cleanup is the identity. Reject when the pool limit of 2 is reached,
otherwise submit one task and mark the logical request pending. -/
def start_face_recognition (s : Sys) (now : Int) : Sys × Bool :=
  if 2 ≤ s.inflight then
    (s, false)
  else
    ({ s with inflight := s.inflight + 1, facePending := true, faceStart := now }, true)

/-- Result of one poll of check_face_recognition_result: the new state, the
side effects performed, and the Python return value. -/
structure PollResult where
  st : Sys
  acts : List Act
  ret : Bool
  deriving Repr, DecidableEq

/-- check_face_recognition_result (main.py lines 264-315). Early return when
no request is pending (before the future-reaping); the reaping of completed
futures is the identity on the inflight count (see start_face_recognition);
then the timeout check, then a non-blocking read of face_result_queue. -/
def check_face_recognition_result (s : Sys) (now : Int) : PollResult :=
  if s.facePending = false then
    ⟨s, [], false⟩
  else
    if now - s.faceStart > FACE_RECOGNITION_TIMEOUT then
      ⟨{ s with facePending := false }, [], false⟩
    else
      match s.results with
      | [] => ⟨s, [], false⟩
      | r :: rest =>
          if r ≠ "unknown" then
            ⟨{ s with
                facePending := false
                results := rest
                authorized := true
                lastAuth := now
                lastFaceSuccess := now },
              [.setWindow, .notify "AUTHORIZED_CARD",
               .servoAngle 180, .sleepFor 2, .servoAngle 0], true⟩
          else
            ⟨{ s with facePending := false, results := rest }, [], false⟩

/-- process_rfid_events (main.py lines 159-207). ev is the head of
rfid_queue (none when the queue is empty and Empty is caught). An authorized
event notifies, opens the authorization window, drives the servo
open-hold(2s)-close, waits for card removal, then sleeps 0.5s; a denied
event only notifies and sleeps. -/
def process_rfid_events (ev : Option (Bool × String)) (now : Int) (s : Sys) :
    Sys × List Act :=
  match ev with
  | none => (s, [])
  | some (authorized, uid) =>
      if uid = "" then
        (s, [])
      else
        if authorized then
          ({ s with authorized := true, lastAuth := now },
            [.notify "AUTHORIZED_CARD", .setWindow,
             .servoAngle 180, .sleepFor 2, .servoAngle 0,
             .waitCardRemoval, .sleepFor ((1 : ℚ) / 2)])
        else
          (s, [.notify "UNAUTHORIZED_CARD", .sleepFor ((1 : ℚ) / 2)])

/-- The gate of the main loop (main.py lines 374-378 plus
check_motion_and_distance): a new recognition attempt starts this tick iff
no request is pending, the image cooldown and the recognition cooldown have
elapsed, motion is recent and the measured distance is close enough. -/
def main_tick_gate (s : Sys) (m : MotionSt) (now lastImageAttempt : Int)
    (dist : Option Int) : Bool :=
  !s.facePending
    && decide (now - lastImageAttempt > IMAGE_COOLDOWN)
    && decide (now - s.lastFaceSuccess > FACE_RECOGNITION_COOLDOWN)
    && check_motion_and_distance m now dist

/-- Events that mutate the shared Sys state, for stating invariants over
arbitrary interleavings: a startAttempt call, a coordinator poll, an MQTT
result delivery, the completion of one background capture task, and an RFID
card event. -/
inductive Ev where
  | start (now : Int)
  | poll (now : Int)
  | deliver (r : String)
  | complete
  | card (authorized : Bool) (uid : String) (now : Int)
  deriving Repr, DecidableEq

/-- State part of one event applied to the shared state. -/
def system_step (s : Sys) : Ev → Sys
  | .start now => (start_face_recognition s now).1
  | .poll now => (check_face_recognition_result s now).st
  | .deliver r => on_face_result s r
  | .complete => { s with inflight := s.inflight - 1 }
  | .card a uid now => (process_rfid_events (some (a, uid)) now s).1

/-- True when every servo command in the trace is preceded by a setWindow
action; the flag records whether a setWindow has been seen so far. -/
def window_before_servo : List Act → Bool → Bool
  | [], _ => true
  | .setWindow :: rest, _ => window_before_servo rest true
  | .servoAngle _ :: rest, seen => seen && window_before_servo rest seen
  | _ :: rest, seen => window_before_servo rest seen

/-- True when the trace contains a servo-open command immediately followed
by a 2 second hold and a servo-close command. -/
def open_hold_close : List Act → Bool
  | .servoAngle 180 :: .sleepFor d :: .servoAngle 0 :: _ => d == 2
  | _ :: rest => open_hold_close rest
  | [] => false

/-- True for servo commands, used to count actuator actions in a trace. -/
def isServoCmd : Act → Bool
  | .servoAngle _ => true
  | _ => false

/-- Stale-result scenario, step 1: a recognition attempt starts at t=0. -/
def stale_s1 : Sys := (start_face_recognition sys0 0).1

/-- Stale-result scenario, step 2: the poll at t=6 hits the 5-second
timeout and clears the pending flag. -/
def stale_s2 : Sys := (check_face_recognition_result stale_s1 6).st

/-- Stale-result scenario, step 3: the result for the timed-out request is
delivered at t=7, while no request is pending. -/
def stale_s3 : Sys := on_face_result stale_s2 "alice"

/-- Stale-result scenario, step 4: a new recognition attempt starts at
t=8. -/
def stale_s4 : Sys := (start_face_recognition stale_s3 8).1

/-- Stale-result scenario, step 5: the poll at t=9 inside the new
request's window. -/
def stale_out : PollResult := check_face_recognition_result stale_s4 9

/-- State right after an authorized-card unlock at t=100 from the initial
state. -/
def card_unlock_100 : Sys :=
  (process_rfid_events (some (true, "0C00201B99")) 100 sys0).1

/-- On an opened reading, a tick either leaves the state unchanged with no
notification, or (from an untriggered, unauthorized, expired-window state)
sets the triggered flag and emits exactly one notification. -/
lemma alarm_tick_opened_cases (s : AlarmSt) (t : Int) :
    alarm_monitor_tick s .opened t = (s, []) ∨
      (alarm_monitor_tick s .opened t =
          ({ s with triggered := true }, [.notify "PHYSICAL_ALARM"]) ∧
        s.triggered = false) := by
  unfold alarm_monitor_tick
  by_cases ha : s.authorized <;>
    by_cases hn : t - s.lastAuth > AUTHORIZED_DOOR_OPEN_INTERVAL <;>
    cases ht : s.triggered <;>
    simp [ha, hn, ht]

/-- Once the triggered flag is set, a span of opened readings emits no
further notification and leaves the state unchanged. -/
lemma alarm_open_span_run_triggered (ts : List Int) (s : AlarmSt)
    (h : s.triggered = true) : alarm_open_span_run s ts = (s, 0) := by
  induction ts with
  | nil => rfl
  | cons t ts ih =>
      have hstep : alarm_monitor_tick s .opened t = (s, []) := by
        rcases alarm_tick_opened_cases s t with h1 | ⟨_, h2⟩
        · exact h1
        · rw [h] at h2; cases h2
      simp [alarm_open_span_run, hstep, ih]

/-- C1: in the alarm monitor, a tick emits exactly one PHYSICAL_ALARM
notification iff the door reads opened, the authorized flag is false, more
than AUTHORIZED_DOOR_OPEN_INTERVAL (5) seconds have elapsed since the last
authorization event and the alarm is not already triggered; the triggered
flag becomes set in exactly the same situation; over any span of
consecutive opened readings at most one notification is emitted; and a
closed reading unconditionally resets the alarm and clears the authorized
flag. -/
theorem c1_alarm_triggered_iff_notify_once :
    (∀ (s : AlarmSt) (d : DoorState) (now : Int),
        (alarm_monitor_tick s d now).2 = [Act.notify "PHYSICAL_ALARM"] ↔
          (d = .opened ∧ s.authorized = false ∧ now - s.lastAuth > 5 ∧
            s.triggered = false)) ∧
    (∀ (s : AlarmSt) (d : DoorState) (now : Int),
        ((alarm_monitor_tick s d now).1.triggered = true ∧ s.triggered = false) ↔
          (d = .opened ∧ s.authorized = false ∧ now - s.lastAuth > 5 ∧
            s.triggered = false)) ∧
    (∀ (s : AlarmSt) (ts : List Int), (alarm_open_span_run s ts).2 ≤ 1) ∧
    (∀ (s : AlarmSt) (now : Int),
        alarm_monitor_tick s .closed now =
          ({ triggered := false, authorized := false, lastAuth := s.lastAuth }, [])) := by
  refine ⟨?_, ?_, ?_, ?_⟩
  · intro s d now
    cases d with
    | closed => simp [alarm_monitor_tick]
    | opened =>
        by_cases ha : s.authorized <;>
          by_cases hn : now - s.lastAuth > 5 <;>
          cases ht : s.triggered <;>
          simp [alarm_monitor_tick, AUTHORIZED_DOOR_OPEN_INTERVAL, ha, ht, hn]
  · intro s d now
    cases d with
    | closed => simp [alarm_monitor_tick]
    | opened =>
        by_cases ha : s.authorized <;>
          by_cases hn : now - s.lastAuth > 5 <;>
          cases ht : s.triggered <;>
          simp [alarm_monitor_tick, AUTHORIZED_DOOR_OPEN_INTERVAL, ha, ht, hn]
  · intro s ts
    induction ts generalizing s with
    | nil => simp [alarm_open_span_run]
    | cons t ts ih =>
        rcases alarm_tick_opened_cases s t with h1 | ⟨h2, _⟩
        · simpa [alarm_open_span_run, h1] using ih s
        · simp [alarm_open_span_run, h2,
            alarm_open_span_run_triggered ts ({ s with triggered := true }) rfl]
  · intro s now
    rfl

/-- C8: pir_motion_callback sets lastMotionTime to the current time and
increments count by one; under a monotone clock (the new reading is not
before the stored one) lastMotionTime never decreases; and the recency
read returns whether now minus lastMotionTime is at most the threshold,
modifying nothing. -/
theorem c8_motion_tracker_monotone (m : MotionSt) (now : Int)
    (h : m.lastMotionTime ≤ now) :
    (pir_motion_callback m now).lastMotionTime = now ∧
      m.lastMotionTime ≤ (pir_motion_callback m now).lastMotionTime ∧
      (pir_motion_callback m now).count = m.count + 1 ∧
      ∀ thr, (isMotionRecent m now thr = true ↔ now - m.lastMotionTime ≤ thr) := by
  refine ⟨rfl, h, rfl, ?_⟩
  intro thr
  simp [isMotionRecent]

/-- Witness for C8 at a concrete motion state and clock. -/
theorem c8_motion_tracker_monotone_witness :
    (pir_motion_callback ⟨0, 0, true⟩ 7).lastMotionTime = 7 ∧
      (isMotionRecent ⟨0, 0, true⟩ 7 5 = true ↔ (7 : Int) - 0 ≤ 5) :=
  ⟨(c8_motion_tracker_monotone ⟨0, 0, true⟩ 7 (by decide)).1,
    (c8_motion_tracker_monotone ⟨0, 0, true⟩ 7 (by decide)).2.2.2 5⟩

/-- C4: the main-loop gate returns true iff no recognition request is
pending, more than 3 seconds passed since the last image attempt, more
than 10 seconds passed since the last recognition success, motion was seen
within the last 5 seconds, and a distance reading was obtained and is at
most 50 cm; in particular it is never true while a request is pending, and
a failed distance read simply yields false. -/
theorem c4_proximity_gate_iff (s : Sys) (m : MotionSt) (now li : Int)
    (dist : Option Int) :
    (main_tick_gate s m now li dist = true ↔
      (s.facePending = false ∧ now - li > 3 ∧ now - s.lastFaceSuccess > 10 ∧
        now - m.lastMotionTime ≤ 5 ∧ ∃ d, dist = some d ∧ d ≤ 50)) ∧
    (s.facePending = true → main_tick_gate s m now li dist = false) := by
  constructor
  · cases dist with
    | none =>
        simp [main_tick_gate, check_motion_and_distance, isMotionRecent,
          IMAGE_COOLDOWN, FACE_RECOGNITION_COOLDOWN]
    | some d =>
        by_cases h3 : now - m.lastMotionTime ≤ 5 <;>
          simp [main_tick_gate, check_motion_and_distance, isMotionRecent,
            IMAGE_COOLDOWN, FACE_RECOGNITION_COOLDOWN, h3, and_assoc]
  · intro hp
    simp [main_tick_gate, hp]

/-- Witness for C4: the gate is false while a request is pending. -/
theorem c4_proximity_gate_iff_witness :
    main_tick_gate { sys0 with facePending := true } ⟨0, 0, true⟩ 20 0 (some 10) = false :=
  (c4_proximity_gate_iff { sys0 with facePending := true } ⟨0, 0, true⟩ 20 0 (some 10)).2 rfl

/-- A poll of the recognition coordinator never changes the number of
in-flight capture tasks. -/
lemma check_face_recognition_result_inflight (s : Sys) (now : Int) :
    (check_face_recognition_result s now).st.inflight = s.inflight := by
  unfold check_face_recognition_result
  repeat' split <;> try rfl

/-- Processing an RFID event never changes the number of in-flight capture
tasks. -/
lemma process_rfid_events_inflight (ev : Option (Bool × String)) (now : Int)
    (s : Sys) : (process_rfid_events ev now s).1.inflight = s.inflight := by
  match ev with
  | none => rfl
  | some (a, uid) =>
      by_cases hu : uid = "" <;> cases a <;> simp [process_rfid_events, hu]

/-- Every system event preserves the bound of two in-flight capture tasks. -/
lemma system_step_inflight_le (s : Sys) (e : Ev) (h : s.inflight ≤ 2) :
    (system_step s e).inflight ≤ 2 := by
  cases e with
  | start now =>
      simp only [system_step, start_face_recognition]
      split
      · exact h
      · next hge =>
          show s.inflight + 1 ≤ 2
          omega
  | poll now => simpa [system_step, check_face_recognition_result_inflight] using h
  | deliver r => simpa [system_step, on_face_result] using h
  | complete =>
      simp only [system_step]
      omega
  | card a uid now => simpa [system_step, process_rfid_events_inflight] using h

/-- C5: a startAttempt call finding two tasks already in flight returns
false and changes nothing (no new task, pending flag and request state
untouched), and consequently every interleaving of system events keeps the
number of in-flight capture tasks at most two. -/
theorem c5_pool_limit :
    (∀ (s : Sys) (now : Int), 2 ≤ s.inflight →
        start_face_recognition s now = (s, false)) ∧
    (∀ (s : Sys) (evs : List Ev), s.inflight ≤ 2 →
        (evs.foldl system_step s).inflight ≤ 2) := by
  constructor
  · intro s now h
    unfold start_face_recognition
    rw [if_pos h]
  · intro s evs
    induction evs generalizing s with
    | nil => intro h; simpa using h
    | cons e evs ih =>
        intro h
        simpa [List.foldl_cons] using ih _ (system_step_inflight_le s e h)

/-- Witness for C5: a rejected third attempt, and a run of three attempt
requests from the initial state staying within the pool bound. -/
theorem c5_pool_limit_witness :
    start_face_recognition { sys0 with inflight := 2 } 0 =
        ({ sys0 with inflight := 2 }, false) ∧
      ([Ev.start 0, Ev.start 1, Ev.start 2].foldl system_step sys0).inflight ≤ 2 :=
  ⟨c5_pool_limit.1 { sys0 with inflight := 2 } 0 (by decide),
    c5_pool_limit.2 sys0 [Ev.start 0, Ev.start 1, Ev.start 2] (by decide)⟩

/-- A pending poll past the 5-second timeout only clears the pending flag:
no side effects, return value false, everything else untouched. -/
lemma check_face_recognition_result_timeout (s : Sys) (now : Int)
    (hp : s.facePending = true) (ht : now - s.faceStart > 5) :
    check_face_recognition_result s now =
      ⟨{ s with facePending := false }, [], false⟩ := by
  unfold check_face_recognition_result
  rw [hp]
  simp [FACE_RECOGNITION_TIMEOUT, ht]

/-- C7: a poll with the request pending, more than 5 seconds elapsed and an
empty result queue clears the pending flag and returns false, issuing no
actuator command and no notification and leaving the authorization window
and the cooldown clock unchanged. -/
theorem c7_timeout_no_decision (s : Sys) (now : Int)
    (hp : s.facePending = true) (ht : now - s.faceStart > 5)
    (hq : s.results = []) :
    check_face_recognition_result s now =
      ⟨{ s with facePending := false }, [], false⟩ :=
  check_face_recognition_result_timeout s now hp ht

/-- Witness for C7: a concrete timed-out poll. -/
theorem c7_timeout_no_decision_witness :
    check_face_recognition_result { sys0 with facePending := true } 6 =
      ⟨{ { sys0 with facePending := true } with facePending := false }, [], false⟩ :=
  c7_timeout_no_decision { sys0 with facePending := true } 6 rfl (by decide) rfl

/-- C9: a timed-out poll clears only the pending flag; the in-flight
capture tasks are not cancelled and keep counting toward the pool limit,
so with a full pool a subsequent startAttempt is rejected even though no
request is pending any more. -/
theorem c9_timeout_keeps_tasks_inflight (s : Sys) (now now2 : Int)
    (hp : s.facePending = true) (ht : now - s.faceStart > 5) :
    (check_face_recognition_result s now).st.inflight = s.inflight ∧
      (check_face_recognition_result s now).st.facePending = false ∧
      (2 ≤ s.inflight →
        start_face_recognition (check_face_recognition_result s now).st now2 =
          ((check_face_recognition_result s now).st, false)) := by
  rw [check_face_recognition_result_timeout s now hp ht]
  refine ⟨rfl, rfl, ?_⟩
  intro h2
  unfold start_face_recognition
  rw [if_pos (show 2 ≤ ({ s with facePending := false } : Sys).inflight from h2)]

/-- Witness for C9: a full pool still blocks a new attempt after a timeout. -/
theorem c9_timeout_keeps_tasks_inflight_witness :
    (check_face_recognition_result { sys0 with facePending := true, inflight := 2 } 6).st.inflight = 2 ∧
      start_face_recognition
          (check_face_recognition_result { sys0 with facePending := true, inflight := 2 } 6).st 7 =
        ((check_face_recognition_result { sys0 with facePending := true, inflight := 2 } 6).st, false) :=
  ⟨(c9_timeout_keeps_tasks_inflight { sys0 with facePending := true, inflight := 2 } 6 7
      rfl (by decide)).1,
    (c9_timeout_keeps_tasks_inflight { sys0 with facePending := true, inflight := 2 } 6 7
      rfl (by decide)).2.2 (by decide)⟩

/-- C10: a poll while no request is pending returns false at once and is a
pure no-op: window, cooldown clock, pending flag, in-flight tasks and the
result queue (any queued result stays unconsumed) are all unchanged. -/
theorem c10_poll_without_pending_noop (s : Sys) (now : Int)
    (hp : s.facePending = false) :
    check_face_recognition_result s now = ⟨s, [], false⟩ := by
  unfold check_face_recognition_result
  rw [hp]
  simp

/-- Witness for C10: a no-op poll with a result sitting in the queue. -/
theorem c10_poll_without_pending_noop_witness :
    check_face_recognition_result { sys0 with results := ["alice"] } 5 =
      ⟨{ sys0 with results := ["alice"] }, [], false⟩ :=
  c10_poll_without_pending_noop { sys0 with results := ["alice"] } 5 rfl

/-- C2 (code bug): a verification result delivered after its request has
timed out locally is not discarded by the code: it stays on the result
queue, and the next recognition attempt consumes it, reopening the door
and resetting the cooldown clock. Concretely: a request starts at t=0,
the poll at t=6 times out and clears the pending flag, the stale result
"alice" arrives at t=7 while nothing is pending, a new attempt starts at
t=8, and the poll at t=9 consumes the stale result, commands the servo
open and sets the cooldown clock and the authorization window. -/
theorem c2_stale_result_reopens_door :
    stale_s2.facePending = false ∧ stale_s3.facePending = false ∧
      stale_out.ret = true ∧
      stale_out.acts.countP (· == Act.servoAngle 180) = 1 ∧
      stale_out.st.lastFaceSuccess = 9 ∧ stale_out.st.authorized = true ∧
      stale_out.st.lastAuth = 9 := by decide

/-- C3 counterexample: an authorized-card unlock at t=100 does not set the
recognition-success clock, so the main-loop gate already passes at t=101,
one second after the unlock, with motion and distance conditions met. -/
theorem c3_card_unlock_starts_attempt_within_cooldown :
    card_unlock_100.authorized = true ∧ card_unlock_100.lastFaceSuccess = 0 ∧
      main_tick_gate card_unlock_100 ⟨100, 1, true⟩ 101 0 (some 30) = true ∧
      ((101 : Int) - 100 < 10) := by decide

/-- C3 (amended): after a successful face-recognition unlock, the
main-loop gate stays false for the next 10 seconds whatever the motion,
distance and image-cooldown conditions are; only face success sets the
cooldown clock, a card unlock does not. -/
theorem c3_face_success_cooldown (s : Sys) (now : Int) (r : String)
    (rest : List String) (m : MotionSt) (now2 li : Int) (dist : Option Int)
    (hp : s.facePending = true) (ht : now - s.faceStart ≤ 5)
    (hq : s.results = r :: rest) (hr : r ≠ "unknown")
    (hc : now2 - now ≤ 10) :
    main_tick_gate (check_face_recognition_result s now).st m now2 li dist = false := by
  have hsucc : (check_face_recognition_result s now).st.lastFaceSuccess = now := by
    unfold check_face_recognition_result
    rw [hp, hq]
    simp [FACE_RECOGNITION_TIMEOUT, hr, show ¬(now - s.faceStart > 5) from by omega]
  have hgt : ¬(now2 - now > 10) := by omega
  simp [main_tick_gate, FACE_RECOGNITION_COOLDOWN, hsucc, hgt]

/-- Witness for the amended C3: five seconds after a face-success unlock
the gate is still false even with fresh motion and a close reading. -/
theorem c3_face_success_cooldown_witness :
    main_tick_gate
        (check_face_recognition_result
          { sys0 with facePending := true, inflight := 1, results := ["alice"] } 1).st
        ⟨0, 0, true⟩ 6 (-5) (some 10) = false :=
  c3_face_success_cooldown
    { sys0 with facePending := true, inflight := 1, results := ["alice"] }
    1 "alice" [] ⟨0, 0, true⟩ 6 (-5) (some 10)
    rfl (by decide) rfl (by decide) (by decide)

/-- C6: an authorized identity event produces exactly one AUTHORIZED_CARD
notification, opens the authorization window (flag and start time) before
any servo command, and drives exactly one servo-open followed by a
2-second hold and exactly one servo-close; a denied event produces exactly
one UNAUTHORIZED_CARD notification, no servo command, and changes no
state. -/
theorem c6_identity_event_sequence (uid : String) (now : Int) (s : Sys)
    (hu : uid ≠ "") :
    ((process_rfid_events (some (true, uid)) now s).2.countP
        (· == Act.notify "AUTHORIZED_CARD") = 1 ∧
      window_before_servo (process_rfid_events (some (true, uid)) now s).2 false = true ∧
      (process_rfid_events (some (true, uid)) now s).2.countP
        (· == Act.servoAngle 180) = 1 ∧
      (process_rfid_events (some (true, uid)) now s).2.countP
        (· == Act.servoAngle 0) = 1 ∧
      open_hold_close (process_rfid_events (some (true, uid)) now s).2 = true ∧
      (process_rfid_events (some (true, uid)) now s).1.authorized = true ∧
      (process_rfid_events (some (true, uid)) now s).1.lastAuth = now) ∧
    ((process_rfid_events (some (false, uid)) now s).2.countP
        (· == Act.notify "UNAUTHORIZED_CARD") = 1 ∧
      (process_rfid_events (some (false, uid)) now s).2.countP isServoCmd = 0 ∧
      (process_rfid_events (some (false, uid)) now s).1 = s) := by
  have ha : process_rfid_events (some (true, uid)) now s =
      ({ s with authorized := true, lastAuth := now },
        [.notify "AUTHORIZED_CARD", .setWindow, .servoAngle 180, .sleepFor 2,
         .servoAngle 0, .waitCardRemoval, .sleepFor ((1 : ℚ) / 2)]) := by
    simp [process_rfid_events, hu]
  have hd : process_rfid_events (some (false, uid)) now s =
      (s, [.notify "UNAUTHORIZED_CARD", .sleepFor ((1 : ℚ) / 2)]) := by
    simp [process_rfid_events, hu]
  rw [ha, hd]
  refine ⟨⟨?_, ?_, ?_, ?_, ?_, rfl, rfl⟩, ?_, ?_, rfl⟩ <;> rfl

/-- Witness for C6 at a concrete authorized card. -/
theorem c6_identity_event_sequence_witness :
    (process_rfid_events (some (true, "0C00201B99")) 100 sys0).2.countP
        (· == Act.notify "AUTHORIZED_CARD") = 1 ∧
      window_before_servo
        (process_rfid_events (some (true, "0C00201B99")) 100 sys0).2 false = true :=
  ⟨(c6_identity_event_sequence "0C00201B99" 100 sys0 (by decide)).1.1,
    (c6_identity_event_sequence "0C00201B99" 100 sys0 (by decide)).1.2.1⟩

end SecureDoor
